import Mathlib

/-!
Verification development for the aws-lights-out-plan repository.

The repository contains two parallel implementations of a "lights-out"
resource orchestration engine:

* `src/lights_out` — a coarse-grained implementation whose orchestration
  module (`src/lights_out/app/orchestrator.py`) exposes `start_resources`
  and `stop_resources`, both of which sort the resource list by the
  `priority` field with Python's stable `sorted` before acting.
* `src/lambda_function` — a fine-grained implementation with a tag-based
  discovery strategy (`discovery/tag_discovery.py`), a time scheduler
  (`core/scheduler.py`), an ECS service handler (`handlers/ecs_service.py`),
  a handler registry (`handlers/factory.py`) and a top-level orchestrator
  (`core/orchestrator.py`).

Python's call-by-value data is embedded as plain Lean data; machine-level
effects (boto3 calls) are embedded as explicit oracle records describing the
control plane's reaction to each call; exceptions are embedded as
`Except String` or as explicit outcome constructors.
-/

/-! ## A model of Python's stable `sorted`

CPython's `sorted(xs, key=k)` is a stable sort: the output is ordered by
`k` and elements with equal keys keep their input order.  With
`reverse=True` the output is ordered by the reversed comparison and equal
elements still keep their input order.  Any stable insertion realises the
same function, so we embed `sorted` as a stable insertion sort
parameterised by a boolean "may come before" relation `le`. -/

def pyInsert (le : α → α → Bool) (a : α) : List α → List α
  | [] => [a]
  | b :: l => if le a b then a :: b :: l else b :: pyInsert le a l

def pyStableSort (le : α → α → Bool) : List α → List α
  | [] => []
  | a :: l => pyInsert le a (pyStableSort le l)

/-! ## A model of Python's `int(str)` conversion

`int(s)` strips ASCII whitespace, accepts an optional sign and a nonempty
digit run in which single underscores may separate digits, and raises
`ValueError` otherwise (embedded as `none`).  Crucially, it accepts
negative numbers. -/

def pyIsSpace (c : Char) : Bool :=
  c == ' ' || c == '\t' || c == '\n' || c == '\r' || c == '\x0b' || c == '\x0c'

def pyStrip (cs : List Char) : List Char :=
  ((cs.dropWhile pyIsSpace).reverse.dropWhile pyIsSpace).reverse

def pyDigitsAux (acc : Nat) : List Char → Option Nat
  | [] => some acc
  | c :: cs =>
    if c.isDigit then pyDigitsAux (10 * acc + (c.toNat - 48)) cs
    else if c == '_' then
      match cs with
      | [] => none
      | c2 :: cs2 =>
        if c2.isDigit then pyDigitsAux (10 * acc + (c2.toNat - 48)) cs2 else none
    else none

def pyDigitsVal : List Char → Option Nat
  | [] => none
  | c :: cs => if c.isDigit then pyDigitsAux (c.toNat - 48) cs else none

def pyIntParse (s : String) : Option Int :=
  match pyStrip s.data with
  | '+' :: rest => (pyDigitsVal rest).map Int.ofNat
  | '-' :: rest => (pyDigitsVal rest).map fun n => -(n : Int)
  | cs => (pyDigitsVal cs).map Int.ofNat

/-! ## Tag-based discovery (`src/lambda_function/discovery/tag_discovery.py`)

`DiscoveredResource` is the dataclass of `discovery/base.py`; dictionaries
of tags are embedded as association lists (`dict.get` becomes `lookupTag`). -/

structure DiscoveredResource where
  resource_type : String
  arn : String
  resource_id : String
  priority : Int
  group : String
  tags : List (String × String)
  metadata : List (String × String) := []
  deriving DecidableEq, Repr

def lookupTag (tags : List (String × String)) (key : String) : Option String :=
  (tags.find? fun kv => kv.fst == key).map (·.snd)

namespace TagDiscovery

def DEFAULT_PRIORITY : Int := 50

def DEFAULT_GROUP : String := "default"

/-- Embedding of `TagDiscovery._extract_priority_from_tags`: read the
`lights-out:priority` tag with default `str(DEFAULT_PRIORITY)`, convert with
`int(...)`, and fall back to `DEFAULT_PRIORITY` on `ValueError`
(the warning log is an unmodelled side effect). -/
def extract_priority_from_tags (tags : List (String × String)) : Int :=
  let priority_str := (lookupTag tags "lights-out:priority").getD (toString DEFAULT_PRIORITY)
  match pyIntParse priority_str with
  | some n => n
  | none => DEFAULT_PRIORITY

end TagDiscovery

/-! ## Time scheduler (`src/lambda_function/core/scheduler.py`)

A `datetime.time` value is embedded as a count of microseconds since
midnight (`datetime.time` comparison is lexicographic on the fields, which
is order-isomorphic to this count).  A `datetime.datetime` is either naive
(its own calendar day and time-of-day, no zone) or aware (an absolute
instant, microseconds since the Unix epoch in UTC).  A `ZoneInfo` is
embedded as its UTC-offset function over absolute instants. -/

def usPerDay : Nat := 86400000000

/-- Microsecond-of-day of `datetime.time(h, m)`. -/
def mkTime (h m : Nat) : Nat := (h * 3600 + m * 60) * 1000000

structure Zone where
  offset : Int → Int

inductive PyDatetime where
  | naive (dayIndex : Int) (tod : Nat)
  | aware (instant : Int)

/-- Python `date.weekday()`: Monday is 0.  Day index 0 (1970-01-01) was a
Thursday, weekday 3. -/
def weekdayOf (dayIndex : Int) : Nat := ((dayIndex + 3).emod 7).toNat

structure Scheduler where
  timezone : Zone
  work_days : List Nat := [0, 1, 2, 3, 4]
  work_start_time : Nat := mkTime 9 0
  work_end_time : Nat := mkTime 17 0

namespace Scheduler

/-- Embedding of `Scheduler._normalize_to_timezone` followed by reading the
local calendar fields: a naive datetime keeps its fields
(`dt.replace(tzinfo=...)`), an aware one is converted with
`dt.astimezone(...)`.  Returns the local `(day index, microsecond of day)`. -/
def normalize (s : Scheduler) : PyDatetime → Int × Nat
  | .naive d t => (d, t)
  | .aware i =>
    let l := i + s.timezone.offset i
    (l.fdiv (usPerDay : Int), (l.emod (usPerDay : Int)).toNat)

def is_workday (s : Scheduler) (dt : PyDatetime) : Bool :=
  s.work_days.contains (weekdayOf (s.normalize dt).1)

def is_working_hours (s : Scheduler) (dt : PyDatetime) : Bool :=
  let current_time := (s.normalize dt).2
  decide (s.work_start_time ≤ current_time ∧ current_time < s.work_end_time)

def is_during_work_time (s : Scheduler) (dt : PyDatetime) : Bool :=
  let dt_in_tz := s.normalize dt
  let is_valid_day := s.work_days.contains (weekdayOf dt_in_tz.1)
  let is_valid_hours :=
    decide (s.work_start_time ≤ dt_in_tz.2 ∧ dt_in_tz.2 < s.work_end_time)
  is_valid_day && is_valid_hours

end Scheduler

/-! ## The `lights_out` implementation

`src/lights_out/core/models.py` defines the pydantic models and
`src/lights_out/app/orchestrator.py` the start/stop orchestration
functions.  The boto3 control plane is embedded as an oracle giving, for
each resource and action, either success or the text of the raised
`ClientError`. -/

namespace LightsOut

inductive ResourceType where
  | ec2
  | rds
  | asg
  deriving DecidableEq, Repr

inductive ActionType where
  | start
  | stop
  deriving DecidableEq, Repr

structure Resource where
  resource_id : String
  resource_type : ResourceType
  resource_arn : String
  tags : List (String × String) := []
  priority : Int := 0
  region : Option String := none
  deriving DecidableEq, Repr

structure ActionResult where
  resource_id : String
  resource_type : ResourceType
  action : ActionType
  success : Bool
  message : String
  dry_run : Bool := false
  deriving DecidableEq, Repr

/-- Control-plane oracle: the outcome of the one boto3 call issued for a
given resource and action (`start_instances`, `stop_db_cluster`,
`resume_processes`, ...): `ok` on success, or the text of the raised
`ClientError`. -/
structure AwsApi where
  call : Resource → ActionType → Except String Unit

/-- Python `needle in haystack.lower()`. -/
def pyLowerContains (haystack needle : String) : Bool :=
  (haystack.toLower.splitOn needle).length != 1

def _start_ec2_instance (api : AwsApi) (r : Resource) : ActionResult :=
  match api.call r .start with
  | .ok _ => ⟨r.resource_id, r.resource_type, .start, true, "EC2 instance start initiated", false⟩
  | .error e => ⟨r.resource_id, r.resource_type, .start, false, "AWS API error: " ++ e, false⟩

def _stop_ec2_instance (api : AwsApi) (r : Resource) : ActionResult :=
  match api.call r .stop with
  | .ok _ => ⟨r.resource_id, r.resource_type, .stop, true, "EC2 instance stop initiated", false⟩
  | .error e => ⟨r.resource_id, r.resource_type, .stop, false, "AWS API error: " ++ e, false⟩

def _start_rds_instance (api : AwsApi) (r : Resource) : ActionResult :=
  match api.call r .start with
  | .ok _ =>
    let message := if pyLowerContains r.resource_arn "cluster"
      then "RDS cluster start initiated" else "RDS instance start initiated"
    ⟨r.resource_id, r.resource_type, .start, true, message, false⟩
  | .error e => ⟨r.resource_id, r.resource_type, .start, false, "AWS API error: " ++ e, false⟩

def _stop_rds_instance (api : AwsApi) (r : Resource) : ActionResult :=
  match api.call r .stop with
  | .ok _ =>
    let message := if pyLowerContains r.resource_arn "cluster"
      then "RDS cluster stop initiated" else "RDS instance stop initiated"
    ⟨r.resource_id, r.resource_type, .stop, true, message, false⟩
  | .error e => ⟨r.resource_id, r.resource_type, .stop, false, "AWS API error: " ++ e, false⟩

def _start_asg (api : AwsApi) (r : Resource) : ActionResult :=
  match api.call r .start with
  | .ok _ => ⟨r.resource_id, r.resource_type, .start, true, "ASG processes resumed", false⟩
  | .error e => ⟨r.resource_id, r.resource_type, .start, false, "AWS API error: " ++ e, false⟩

def _stop_asg (api : AwsApi) (r : Resource) : ActionResult :=
  match api.call r .stop with
  | .ok _ => ⟨r.resource_id, r.resource_type, .stop, true, "ASG processes suspended", false⟩
  | .error e => ⟨r.resource_id, r.resource_type, .stop, false, "AWS API error: " ++ e, false⟩

/-- Embedding of `_start_resource`.  The `else: Unsupported resource type`
branch of the source is unreachable because `ResourceType` enumerates
exactly the three supported families. -/
def _start_resource (api : AwsApi) (r : Resource) (dry_run : Bool) : ActionResult :=
  if dry_run then
    ⟨r.resource_id, r.resource_type, .start, true, "DRY RUN: Would start resource", true⟩
  else
    match r.resource_type with
    | .ec2 => _start_ec2_instance api r
    | .rds => _start_rds_instance api r
    | .asg => _start_asg api r

def _stop_resource (api : AwsApi) (r : Resource) (dry_run : Bool) : ActionResult :=
  if dry_run then
    ⟨r.resource_id, r.resource_type, .stop, true, "DRY RUN: Would stop resource", true⟩
  else
    match r.resource_type with
    | .ec2 => _stop_ec2_instance api r
    | .rds => _stop_rds_instance api r
    | .asg => _stop_asg api r

/-- Sort key of `start_resources`: `sorted(resources, key=lambda r: r.priority)`. -/
def startLe (a b : Resource) : Bool := decide (a.priority ≤ b.priority)

/-- Sort key of `stop_resources`:
`sorted(resources, key=lambda r: r.priority, reverse=True)` — CPython's
`reverse=True` keeps equal-key elements in input order. -/
def stopLe (a b : Resource) : Bool := decide (b.priority ≤ a.priority)

def start_resources (api : AwsApi) (resources : List Resource) (dry_run : Bool := false) :
    List ActionResult :=
  let sorted_resources := pyStableSort startLe resources
  sorted_resources.map fun r => _start_resource api r dry_run

def stop_resources (api : AwsApi) (resources : List Resource) (dry_run : Bool := false) :
    List ActionResult :=
  let sorted_resources := pyStableSort stopLe resources
  sorted_resources.map fun r => _stop_resource api r dry_run

end LightsOut

/-! ## Handler abstraction (`src/lambda_function/handlers/base.py`) -/

/-- Status snapshot returned by `ECSServiceHandler.get_status`. -/
structure ECSStatus where
  desired_count : Int
  running_count : Int
  status : String
  is_stopped : Bool
  deriving DecidableEq, Repr

/-- The `HandlerResult` dataclass.  `previous_state` is the optional status
snapshot captured before the mutating call. -/
structure HandlerResult where
  success : Bool
  action : String
  resource_type : String
  resource_id : String
  message : String
  previous_state : Option ECSStatus := none
  error : Option String := none
  deriving DecidableEq, Repr

/-- One entry of `config["resource_defaults"]`; absent keys are `none` and
the source reads them with `dict.get(key, default)`. -/
structure ResourceDefaults where
  wait_for_stable : Option Bool := none
  stable_timeout_seconds : Option Int := none
  default_desired_count : Option Int := none
  deriving DecidableEq, Repr

structure HandlerConfig where
  resource_defaults : List (String × ResourceDefaults) := []
  deriving DecidableEq, Repr

/-! ## ECS service handler (`src/lambda_function/handlers/ecs_service.py`)

The boto3 ECS client is embedded as `ECSEnv`: the current service record
(`none` when `describe_services` returns an empty list), plus the failure
modes of the three calls the handler issues — each is `some text` when the
call raises an exception with that text.  `update_service` mutates the
service's `desiredCount`; the waiter's polling is summarised by its final
outcome `waitErr` (its timeout arithmetic does not affect the result
values proved about here). -/

structure ECSService where
  desiredCount : Int
  runningCount : Int
  status : String
  deriving DecidableEq, Repr

structure ECSEnv where
  svc : Option ECSService
  describeErr : Option String := none
  updateErr : Option String := none
  waitErr : Option String := none
  deriving DecidableEq, Repr

structure ECSServiceHandler where
  resource : DiscoveredResource
  config : HandlerConfig
  cluster_name : String
  service_name : String
  deriving DecidableEq, Repr

namespace ECSServiceHandler

/-- Embedding of `ECSServiceHandler.__init__`: the cluster name comes from
the discovery metadata (default `"default"`), the service name is the last
`/`-separated component of the resource id. -/
def init (resource : DiscoveredResource) (config : HandlerConfig) : ECSServiceHandler :=
  { resource := resource
    config := config
    cluster_name := (lookupTag resource.metadata "cluster_name").getD "default"
    service_name :=
      if resource.resource_id.contains '/' then
        ((resource.resource_id.splitOn "/").getLast?).getD resource.resource_id
      else resource.resource_id }

def _get_resource_defaults (h : ECSServiceHandler) : ResourceDefaults :=
  ((h.config.resource_defaults.find? fun kv => kv.fst == h.resource.resource_type).map
    (·.snd)).getD {}

/-- Embedding of `get_status`: a raised exception is `Except.error` with the
exception text. -/
def get_status (h : ECSServiceHandler) (env : ECSEnv) : Except String ECSStatus :=
  match env.describeErr with
  | some e => .error e
  | none =>
    match env.svc with
    | none =>
      .error ("Service " ++ h.service_name ++ " not found in cluster " ++ h.cluster_name)
    | some service =>
      .ok { desired_count := service.desiredCount
            running_count := service.runningCount
            status := service.status
            is_stopped := service.desiredCount == 0 }

/-- Outcome of one handler operation: the returned `HandlerResult`, the
control-plane state afterwards, and whether a mutating `update_service`
call was issued. -/
structure OpResult where
  result : HandlerResult
  env : ECSEnv
  updateCalled : Bool
  deriving DecidableEq, Repr

/-- Embedding of `ECSServiceHandler.stop`. -/
def stop (h : ECSServiceHandler) (env : ECSEnv) : OpResult :=
  match h.get_status env with
  | .error e =>
    { result := { success := false, action := "stop",
                  resource_type := h.resource.resource_type,
                  resource_id := h.resource.resource_id,
                  message := "Stop operation failed", error := some e }
      env := env, updateCalled := false }
  | .ok current_status =>
    if current_status.is_stopped then
      { result := { success := true, action := "stop",
                    resource_type := h.resource.resource_type,
                    resource_id := h.resource.resource_id,
                    message := "Service already stopped",
                    previous_state := some current_status }
        env := env, updateCalled := false }
    else
      match env.updateErr with
      | some e =>
        { result := { success := false, action := "stop",
                      resource_type := h.resource.resource_type,
                      resource_id := h.resource.resource_id,
                      message := "Stop operation failed", error := some e }
          env := env, updateCalled := true }
      | none =>
        let env' := { env with svc := env.svc.map fun s => { s with desiredCount := 0 } }
        let defaults := h._get_resource_defaults
        if defaults.wait_for_stable.getD false then
          match env'.waitErr with
          | some e =>
            { result := { success := false, action := "stop",
                          resource_type := h.resource.resource_type,
                          resource_id := h.resource.resource_id,
                          message := "Stop operation failed", error := some e }
              env := env', updateCalled := true }
          | none =>
            { result := { success := true, action := "stop",
                          resource_type := h.resource.resource_type,
                          resource_id := h.resource.resource_id,
                          message := "Service scaled to 0 (was " ++
                            toString current_status.desired_count ++ ")",
                          previous_state := some current_status }
              env := env', updateCalled := true }
        else
          { result := { success := true, action := "stop",
                        resource_type := h.resource.resource_type,
                        resource_id := h.resource.resource_id,
                        message := "Service scaled to 0 (was " ++
                          toString current_status.desired_count ++ ")",
                        previous_state := some current_status }
            env := env', updateCalled := true }

/-- Embedding of `ECSServiceHandler.start`. -/
def start (h : ECSServiceHandler) (env : ECSEnv) : OpResult :=
  match h.get_status env with
  | .error e =>
    { result := { success := false, action := "start",
                  resource_type := h.resource.resource_type,
                  resource_id := h.resource.resource_id,
                  message := "Start operation failed", error := some e }
      env := env, updateCalled := false }
  | .ok current_status =>
    let defaults := h._get_resource_defaults
    let target_count := defaults.default_desired_count.getD 1
    if current_status.desired_count == target_count then
      { result := { success := true, action := "start",
                    resource_type := h.resource.resource_type,
                    resource_id := h.resource.resource_id,
                    message := "Service already at desired count " ++ toString target_count,
                    previous_state := some current_status }
        env := env, updateCalled := false }
    else
      match env.updateErr with
      | some e =>
        { result := { success := false, action := "start",
                      resource_type := h.resource.resource_type,
                      resource_id := h.resource.resource_id,
                      message := "Start operation failed", error := some e }
          env := env, updateCalled := true }
      | none =>
        let env' :=
          { env with svc := env.svc.map fun s => { s with desiredCount := target_count } }
        if defaults.wait_for_stable.getD false then
          match env'.waitErr with
          | some e =>
            { result := { success := false, action := "start",
                          resource_type := h.resource.resource_type,
                          resource_id := h.resource.resource_id,
                          message := "Start operation failed", error := some e }
              env := env', updateCalled := true }
          | none =>
            { result := { success := true, action := "start",
                          resource_type := h.resource.resource_type,
                          resource_id := h.resource.resource_id,
                          message := "Service scaled to " ++ toString target_count,
                          previous_state := some current_status }
              env := env', updateCalled := true }
        else
          { result := { success := true, action := "start",
                        resource_type := h.resource.resource_type,
                        resource_id := h.resource.resource_id,
                        message := "Service scaled to " ++ toString target_count,
                        previous_state := some current_status }
            env := env', updateCalled := true }

end ECSServiceHandler

/-! ## Handler registry (`src/lambda_function/handlers/factory.py`) -/

def HANDLER_REGISTRY : List String := ["ecs-service"]

/-! ## Orchestrator (`src/lambda_function/core/orchestrator.py`)

`Orchestrator.run` iterates over the discovered resources, skips resources
whose schedule lookup is falsy, counts a missing handler as a failure,
dispatches the action, and aggregates counts and results.  Handler
behaviour (and `get_status`) is embedded as an oracle `HandlerEnv`, since
the registry is extensible at runtime via `register_handler` and the
repository's own tests drive this loop with mock handlers; an operation
either returns a `HandlerResult` or raises. -/

namespace Orchestrator

/-- Modelled from the spec: `get_schedule` is imported from
`src.lambda_function.core.scheduler` but is defined nowhere in the source.
The spec says the orchestrator must "resolve its schedule identifier from
its tags using the configured schedule-tag key; if absent, skip", so the
model reads the configured schedule tag from the resource's tags
(`schedule_tag` itself is `None` when `settings.schedule_tag` is absent). -/
def get_schedule (resource : DiscoveredResource) (schedule_tag : Option String) :
    Option String :=
  schedule_tag.bind fun t => lookupTag resource.tags t

/-- Python truthiness of the looked-up schedule (`if not schedule`): `None`
and the empty string are falsy. -/
def scheduleFalsy : Option String → Bool
  | none => true
  | some s => s.isEmpty

inductive OpOutcome where
  | returns (h : HandlerResult)
  | raises (e : String)

structure HandlerEnv where
  dispatch : DiscoveredResource → String → OpOutcome
  statusOf : DiscoveredResource → Except String ECSStatus

/-- One element of the orchestrator's `results` list: a `HandlerResult`
object, the ad-hoc status dict (whose `success` key is `True`), or the
ad-hoc error dict built in the `except` branch (whose `success` key is
`False`). -/
inductive RunResult where
  | handler (h : HandlerResult)
  | statusDict (resource_id resource_type : String) (status : ECSStatus)
  | errorDict (resource_id resource_type : String) (error : String)
  deriving DecidableEq, Repr

/-- The classification the source performs on each appended result:
`result.get("success")` for the two dict shapes, `result.success` for
`HandlerResult` objects. -/
def RunResult.isSuccess : RunResult → Bool
  | .handler h => h.success
  | .statusDict _ _ _ => true
  | .errorDict _ _ _ => false

/-- Accumulator of the per-resource loop.  `processed` records the loop's
iteration order (one entry per discovered resource, appended when its
iteration begins); it is observational instrumentation, not source state. -/
structure RunState where
  results : List RunResult := []
  succeeded : Nat := 0
  failed : Nat := 0
  processed : List DiscoveredResource := []
  deriving DecidableEq, Repr

def applyOp (st : RunState) (r : DiscoveredResource) : OpOutcome → RunState
  | .returns h =>
    { st with results := st.results ++ [.handler h]
              succeeded := if h.success then st.succeeded + 1 else st.succeeded
              failed := if h.success then st.failed else st.failed + 1 }
  | .raises e =>
    { st with results := st.results ++ [.errorDict r.resource_id r.resource_type e]
              failed := st.failed + 1 }

/-- Embedding of one iteration of the `for resource in resources` loop of
`Orchestrator.run` (lines 67-138). -/
def processResource (env : HandlerEnv) (schedule_tag : Option String) (action : String)
    (st0 : RunState) (r : DiscoveredResource) : RunState :=
  let st := { st0 with processed := st0.processed ++ [r] }
  if scheduleFalsy (get_schedule r schedule_tag) then st
  else if HANDLER_REGISTRY.contains r.resource_type then
    if action == "start" then applyOp st r (env.dispatch r "start")
    else if action == "stop" then applyOp st r (env.dispatch r "stop")
    else if action == "status" then
      match env.statusOf r with
      | .ok status =>
        { st with results := st.results ++ [.statusDict r.resource_id r.resource_type status]
                  succeeded := st.succeeded + 1 }
      | .error e =>
        { st with results := st.results ++ [.errorDict r.resource_id r.resource_type e]
                  failed := st.failed + 1 }
    else { st with failed := st.failed + 1 }
  else { st with failed := st.failed + 1 }

def runLoop (env : HandlerEnv) (schedule_tag : Option String) (action : String)
    (resources : List DiscoveredResource) : RunState :=
  resources.foldl (processResource env schedule_tag action) {}

/-- The summary dict built at the end of `Orchestrator.run`. -/
structure Summary where
  total : Nat
  succeeded : Nat
  failed : Nat
  results : List RunResult
  deriving DecidableEq, Repr

/-- Recognised configuration options consumed by the orchestrator:
`config.get("discovery", {}).get("method")` and
`config.get("settings", {}).get("schedule_tag")`. -/
structure OrchConfig where
  discovery_method : Option String := none
  schedule_tag : Option String := none
  deriving DecidableEq, Repr

/-- The exception raised by `TagDiscovery(self.config)` in
`discover_resources`: `TagDiscovery.__init__` requires the two positional
arguments `tag_filters` and `resource_types`, but is called with the single
argument `config`. -/
def tagDiscoveryArityError : String :=
  "TypeError: TagDiscovery.__init__() missing 1 required positional argument: resource_types"

/-- Embedding of `Orchestrator.discover_resources`: raising is
`Except.error`; the non-"tags" branch logs a warning (unmodelled side
effect) and returns the empty list. -/
def discover_resources (config : OrchConfig) : Except String (List DiscoveredResource) :=
  if config.discovery_method == some "tags" then .error tagDiscoveryArityError
  else .ok []

/-- Embedding of `Orchestrator.run`: a discovery failure propagates as the
raised exception; otherwise the per-resource loop runs over the discovered
list and the summary dict is returned. -/
def run (env : HandlerEnv) (config : OrchConfig) (action : String) :
    Except String Summary :=
  (discover_resources config).map fun resources =>
    let st := runLoop env config.schedule_tag action resources
    { total := resources.length, succeeded := st.succeeded,
      failed := st.failed, results := st.results }

/-- The summary produced by the per-resource loop for a given discovery
result (the repository's tests exercise `run` this way, mocking
`discover_resources`). -/
def runSummary (env : HandlerEnv) (schedule_tag : Option String) (action : String)
    (resources : List DiscoveredResource) : Summary :=
  let st := runLoop env schedule_tag action resources
  { total := resources.length, succeeded := st.succeeded,
    failed := st.failed, results := st.results }

/-- Number of discovered resources the loop skips because their schedule
lookup is falsy. -/
def skippedCount (schedule_tag : Option String) (resources : List DiscoveredResource) : Nat :=
  (resources.filter fun r => scheduleFalsy (get_schedule r schedule_tag)).length

end Orchestrator

/-! ## Auxiliary predicates and concrete fixtures used by the theorems -/

/-- All control-plane exception texts of this environment are non-empty. -/
def ECSEnv.errorsNonempty (env : ECSEnv) : Prop :=
  (∀ e, env.describeErr = some e → e ≠ "") ∧
  (∀ e, env.updateErr = some e → e ≠ "") ∧
  (∀ e, env.waitErr = some e → e ≠ "")

/-- A fixed-offset zone (UTC). -/
def utcZone : Zone := ⟨fun _ => 0⟩

/-- The scheduler with default configuration (09:00-17:00, Monday-Friday). -/
def schedDefault : Scheduler := { timezone := utcZone }

/-- A discovered ECS service with a schedule tag and priority 1. -/
def rSvcA : DiscoveredResource :=
  { resource_type := "ecs-service"
    arn := "arn:aws:ecs:us-east-1:123456789012:service/prod/svc-a"
    resource_id := "prod/svc-a"
    priority := 1
    group := "default"
    tags := [("lights-out:schedule", "office-hours")]
    metadata := [("cluster_name", "prod")] }

/-- A discovered ECS service with a schedule tag and priority 2. -/
def rSvcB : DiscoveredResource :=
  { resource_type := "ecs-service"
    arn := "arn:aws:ecs:us-east-1:123456789012:service/prod/svc-b"
    resource_id := "prod/svc-b"
    priority := 2
    group := "default"
    tags := [("lights-out:schedule", "office-hours")]
    metadata := [("cluster_name", "prod")] }

/-- A discovered resource with a schedule tag whose type has no registered
handler. -/
def rNoHandler : DiscoveredResource :=
  { resource_type := "nat-gateway"
    arn := "arn:aws:ec2:us-east-1:123456789012:natgateway/nat-0abc"
    resource_id := "nat-0abc"
    priority := 50
    group := "default"
    tags := [("lights-out:schedule", "office-hours")] }

/-- A discovered resource that carries no schedule tag. -/
def rNoSchedule : DiscoveredResource :=
  { resource_type := "ecs-service"
    arn := "arn:aws:ecs:us-east-1:123456789012:service/prod/svc-c"
    resource_id := "prod/svc-c"
    priority := 50
    group := "default"
    tags := [] }

/-- Handler oracle whose operations always succeed, echoing the resource. -/
def envOk : Orchestrator.HandlerEnv :=
  { dispatch := fun r a =>
      .returns { success := true, action := a, resource_type := r.resource_type,
                 resource_id := r.resource_id, message := "ok" }
    statusOf := fun _ => .ok { desired_count := 0, running_count := 0,
                               status := "ACTIVE", is_stopped := true } }

/-- Handler oracle whose every dispatched operation raises. -/
def envRaises : Orchestrator.HandlerEnv :=
  { dispatch := fun _ _ => .raises "boom"
    statusOf := fun _ => .error "boom" }

/-- An ECS control plane whose service is already stopped (desired count 0). -/
def ecsEnvStopped : ECSEnv := { svc := some { desiredCount := 0, runningCount := 0, status := "ACTIVE" } }

/-- An ECS control plane whose describe call raises an exception with empty
text. -/
def ecsEnvEmptyErr : ECSEnv :=
  { svc := some { desiredCount := 1, runningCount := 1, status := "ACTIVE" }
    describeErr := some "" }

/-- The handler built for `rSvcA` under an empty configuration. -/
def hSvcA : ECSServiceHandler := ECSServiceHandler.init rSvcA {}
theorem pyInsert_perm (le : α → α → Bool) (a : α) (l : List α) :
    List.Perm (pyInsert le a l) (a :: l) := by
  induction l with
  | nil => rfl
  | cons b bs ih =>
    unfold pyInsert
    by_cases h : le a b = true
    · simp [h]
    · simp only [h, if_false, Bool.false_eq_true]
      exact (List.Perm.cons b ih).trans (List.Perm.swap a b bs)

theorem pyStableSort_perm (le : α → α → Bool) (l : List α) :
    List.Perm (pyStableSort le l) l := by
  induction l with
  | nil => rfl
  | cons a as ih =>
    exact (pyInsert_perm le a (pyStableSort le as)).trans (List.Perm.cons a ih)

theorem mem_pyInsert (le : α → α → Bool) (a x : α) (l : List α) :
    x ∈ pyInsert le a l ↔ x = a ∨ x ∈ l := by
  rw [(pyInsert_perm le a l).mem_iff, List.mem_cons]

theorem pairwise_pyInsert (le : α → α → Bool)
    (htot : ∀ a b, le a b = true ∨ le b a = true)
    (htrans : ∀ a b c, le a b = true → le b c = true → le a c = true)
    (a : α) (l : List α) (h : l.Pairwise fun x y => le x y = true) :
    (pyInsert le a l).Pairwise fun x y => le x y = true := by
  induction l with
  | nil => simp [pyInsert]
  | cons b bs ih =>
    rw [List.pairwise_cons] at h
    obtain ⟨hb, hbs⟩ := h
    unfold pyInsert
    by_cases hab : le a b = true
    · simp only [hab, if_true]
      rw [List.pairwise_cons]
      refine ⟨?_, ?_⟩
      · intro x hx
        rcases List.mem_cons.mp hx with hx | hx
        · exact hx ▸ hab
        · exact htrans a b x hab (hb x hx)
      · rw [List.pairwise_cons]
        exact ⟨hb, hbs⟩
    · simp only [hab, if_false, Bool.false_eq_true]
      rw [List.pairwise_cons]
      refine ⟨?_, ih hbs⟩
      intro x hx
      rcases (mem_pyInsert le a x bs).mp hx with hx | hx
      · subst hx
        rcases htot x b with hc | hc
        · exact absurd hc hab
        · exact hc
      · exact hb x hx

theorem pairwise_pyStableSort (le : α → α → Bool)
    (htot : ∀ a b, le a b = true ∨ le b a = true)
    (htrans : ∀ a b c, le a b = true → le b c = true → le a c = true)
    (l : List α) :
    (pyStableSort le l).Pairwise fun x y => le x y = true := by
  induction l with
  | nil => simp [pyStableSort]
  | cons a as ih => exact pairwise_pyInsert le htot htrans a _ ih

theorem filter_pyInsert_pos (le : α → α → Bool) (q : α → Bool) (a : α)
    (hq : q a = true) (h : ∀ b, le a b = false → q b = false) (l : List α) :
    (pyInsert le a l).filter q = a :: l.filter q := by
  induction l with
  | nil => simp [pyInsert, hq]
  | cons b bs ih =>
    unfold pyInsert
    by_cases hab : le a b = true
    · simp [hab, hq]
    · have hb : q b = false := h b (by simpa using hab)
      simp only [hab, if_false, Bool.false_eq_true]
      rw [List.filter_cons, List.filter_cons]
      simp [hb, ih]

theorem filter_pyInsert_neg (le : α → α → Bool) (q : α → Bool) (a : α)
    (hq : q a = false) (l : List α) :
    (pyInsert le a l).filter q = l.filter q := by
  induction l with
  | nil => simp [pyInsert, hq]
  | cons b bs ih =>
    unfold pyInsert
    by_cases hab : le a b = true
    · simp [hab, hq]
    · simp only [hab, if_false, Bool.false_eq_true]
      rw [List.filter_cons, List.filter_cons]
      cases hb : q b <;> simp [hb, ih]

theorem filter_pyStableSort (le : α → α → Bool) (q : α → Bool)
    (h : ∀ a b, q a = true → le a b = false → q b = false) (l : List α) :
    (pyStableSort le l).filter q = l.filter q := by
  induction l with
  | nil => rfl
  | cons a as ih =>
    unfold pyStableSort
    by_cases hq : q a = true
    · rw [filter_pyInsert_pos le q a hq (fun b => h a b hq) _, ih, List.filter_cons]
      simp [hq]
    · have hq' : q a = false := by simpa using hq
      rw [filter_pyInsert_neg le q a hq' _, ih, List.filter_cons]
      simp [hq']

theorem length_filter_add_length_filter_not (p : α → Bool) (l : List α) :
    (l.filter p).length + (l.filter fun a => !(p a)).length = l.length := by
  induction l with
  | nil => rfl
  | cons a as ih =>
    rw [List.filter_cons, List.filter_cons]
    cases h : p a <;> simp [h, ← ih] <;> omega


/-! ## Helper lemmas about the orchestrator loop -/

namespace Orchestrator

theorem applyOp_processed (st : RunState) (r : DiscoveredResource) (o : OpOutcome) :
    (applyOp st r o).processed = st.processed := by
  cases o <;> rfl

theorem processResource_processed (env : HandlerEnv) (tag : Option String) (action : String)
    (st : RunState) (r : DiscoveredResource) :
    (processResource env tag action st r).processed = st.processed ++ [r] := by
  unfold processResource
  by_cases h1 : scheduleFalsy (get_schedule r tag)
  · simp [h1]
  · simp only [h1, if_false, Bool.false_eq_true]
    by_cases h2 : HANDLER_REGISTRY.contains r.resource_type
    · simp only [h2, if_true]
      by_cases h3 : action == "start"
      · simp [h3, applyOp_processed]
      · simp only [h3, if_false, Bool.false_eq_true]
        by_cases h4 : action == "stop"
        · simp [h4, applyOp_processed]
        · simp only [h4, if_false, Bool.false_eq_true]
          by_cases h5 : action == "status"
          · simp only [h5, if_true]
            cases env.statusOf r <;> rfl
          · simp [h5]
    · have h2' : ¬ r.resource_type ∈ HANDLER_REGISTRY := by simpa using h2
      simp [h2']

theorem foldl_processed (env : HandlerEnv) (tag : Option String) (action : String) :
    ∀ (resources : List DiscoveredResource) (st : RunState),
      (resources.foldl (processResource env tag action) st).processed =
        st.processed ++ resources := by
  intro resources
  induction resources with
  | nil => intro st; simp
  | cons r rs ih =>
    intro st
    rw [List.foldl_cons, ih, processResource_processed]
    simp

theorem applyOp_counts (st : RunState) (r : DiscoveredResource) (o : OpOutcome) :
    ((applyOp st r o).succeeded = st.succeeded + 1 ∧ (applyOp st r o).failed = st.failed) ∨
    ((applyOp st r o).succeeded = st.succeeded ∧ (applyOp st r o).failed = st.failed + 1) := by
  cases o with
  | returns h => cases hs : h.success <;> simp [applyOp, hs]
  | raises e => right; simp [applyOp]

/-- Each non-skipped resource increments exactly one of the two counters. -/
theorem processResource_exactly_one (env : HandlerEnv) (tag : Option String) (action : String)
    (st : RunState) (r : DiscoveredResource)
    (h : scheduleFalsy (get_schedule r tag) = false) :
    ((processResource env tag action st r).succeeded = st.succeeded + 1 ∧
      (processResource env tag action st r).failed = st.failed) ∨
    ((processResource env tag action st r).succeeded = st.succeeded ∧
      (processResource env tag action st r).failed = st.failed + 1) := by
  unfold processResource
  simp only [h, if_false, Bool.false_eq_true]
  by_cases h2 : HANDLER_REGISTRY.contains r.resource_type
  · simp only [h2, if_true]
    by_cases h3 : action == "start"
    · simpa [h3] using applyOp_counts _ r (env.dispatch r "start")
    · simp only [h3, if_false, Bool.false_eq_true]
      by_cases h4 : action == "stop"
      · simpa [h4] using applyOp_counts _ r (env.dispatch r "stop")
      · simp only [h4, if_false, Bool.false_eq_true]
        by_cases h5 : action == "status"
        · simp only [h5, if_true]
          cases env.statusOf r with
          | ok s => left; simp
          | error e => right; simp
        · simp [h5]
  · have h2' : ¬ r.resource_type ∈ HANDLER_REGISTRY := by simpa using h2
    right
    simp [h2']

theorem processResource_skip (env : HandlerEnv) (tag : Option String) (action : String)
    (st : RunState) (r : DiscoveredResource)
    (h : scheduleFalsy (get_schedule r tag) = true) :
    (processResource env tag action st r).succeeded = st.succeeded ∧
    (processResource env tag action st r).failed = st.failed ∧
    (processResource env tag action st r).results = st.results := by
  unfold processResource
  simp [h]

theorem processResource_count_sum (env : HandlerEnv) (tag : Option String) (action : String)
    (st : RunState) (r : DiscoveredResource) :
    (processResource env tag action st r).succeeded +
      (processResource env tag action st r).failed =
    st.succeeded + st.failed +
      (if scheduleFalsy (get_schedule r tag) then 0 else 1) := by
  by_cases h : scheduleFalsy (get_schedule r tag)
  · obtain ⟨h1, h2, _⟩ := processResource_skip env tag action st r h
    simp [h1, h2, h]
  · have h' : scheduleFalsy (get_schedule r tag) = false := by simpa using h
    rcases processResource_exactly_one env tag action st r h' with ⟨h1, h2⟩ | ⟨h1, h2⟩ <;>
      simp [h1, h2, h'] <;> omega

theorem foldl_count_sum (env : HandlerEnv) (tag : Option String) (action : String) :
    ∀ (resources : List DiscoveredResource) (st : RunState),
      (resources.foldl (processResource env tag action) st).succeeded +
        (resources.foldl (processResource env tag action) st).failed =
      st.succeeded + st.failed +
        (resources.filter fun r => !(scheduleFalsy (get_schedule r tag))).length := by
  intro resources
  induction resources with
  | nil => intro st; simp
  | cons r rs ih =>
    intro st
    rw [List.foldl_cons, ih, processResource_count_sum, List.filter_cons]
    by_cases h : scheduleFalsy (get_schedule r tag)
    · simp [h]
    · simp [h]
      omega

end Orchestrator

/-! ## Claim theorems -/

/-- C9: for every scheduler and every datetime, naive or aware,
`is_during_work_time dt` equals `is_workday dt && is_working_hours dt`,
although `is_during_work_time` normalizes the zone only once. -/
theorem work_time_conjunction (s : Scheduler) (dt : PyDatetime) :
    s.is_during_work_time dt = (s.is_workday dt && s.is_working_hours dt) := rfl

/-- C8: with work hours 09:00-17:00, an instant whose zone-local
time-of-day is exactly 09:00:00 is within working hours and one at exactly
17:00:00 is not; in general the check is `start <= t < end`, inclusive
below and exclusive above. -/
theorem working_hours_boundary (s : Scheduler) (dt : PyDatetime)
    (h9 : s.work_start_time = mkTime 9 0) (h17 : s.work_end_time = mkTime 17 0) :
    ((s.normalize dt).2 = mkTime 9 0 → s.is_working_hours dt = true) ∧
    ((s.normalize dt).2 = mkTime 17 0 → s.is_working_hours dt = false) ∧
    (s.is_working_hours dt = true ↔
      s.work_start_time ≤ (s.normalize dt).2 ∧ (s.normalize dt).2 < s.work_end_time) := by
  unfold Scheduler.is_working_hours
  refine ⟨?_, ?_, by simp⟩
  · intro ht
    rw [ht, h9, h17]
    decide
  · intro ht
    rw [ht, h9, h17]
    decide

/-- Witness for C8: the default scheduler at naive instants whose
time-of-day is exactly 09:00:00 and exactly 17:00:00. -/
theorem working_hours_boundary_witness :
    schedDefault.work_start_time = mkTime 9 0 ∧
    schedDefault.work_end_time = mkTime 17 0 ∧
    schedDefault.is_working_hours (.naive 0 (mkTime 9 0)) = true ∧
    schedDefault.is_working_hours (.naive 0 (mkTime 17 0)) = false :=
  ⟨rfl, rfl,
    (working_hours_boundary schedDefault (.naive 0 (mkTime 9 0)) rfl rfl).1 rfl,
    (working_hours_boundary schedDefault (.naive 0 (mkTime 17 0)) rfl rfl).2.1 rfl⟩

/-- C10: for every configuration whose discovery method is not "tags"
(including absent), `discover_resources` returns the empty list instead of
raising (the warning log is an unmodelled side effect). -/
theorem discover_unknown_method (config : Orchestrator.OrchConfig)
    (h : config.discovery_method ≠ some "tags") :
    Orchestrator.discover_resources config = .ok [] := by
  unfold Orchestrator.discover_resources
  have h' : (config.discovery_method == some "tags") = false := by
    simpa using h
  simp [h']

/-- Witness for C10: the configuration with `discovery.method = "unknown"`. -/
theorem discover_unknown_method_witness :
    ({ discovery_method := some "unknown" } : Orchestrator.OrchConfig).discovery_method ≠
      some "tags" ∧
    Orchestrator.discover_resources { discovery_method := some "unknown" } = .ok [] :=
  ⟨by decide, discover_unknown_method { discovery_method := some "unknown" } (by decide)⟩

/-- C5: for every configuration whose discovery method is "tags" and every
action, `Orchestrator.run` raises instead of returning a summary: the call
`TagDiscovery(self.config)` fails `TagDiscovery.__init__`'s two-positional-
argument signature before the loop is reached (independently, the loop's
`get_schedule` import does not exist in the source). -/
theorem run_raises_for_tags_discovery (env : Orchestrator.HandlerEnv)
    (config : Orchestrator.OrchConfig) (action : String)
    (h : config.discovery_method = some "tags") :
    Orchestrator.run env config action = .error Orchestrator.tagDiscoveryArityError := by
  unfold Orchestrator.run Orchestrator.discover_resources
  rw [h]
  rfl

/-- Witness for C5: a "tags" configuration under the always-succeeding
handler oracle and the "start" action. -/
theorem run_raises_for_tags_discovery_witness :
    ({ discovery_method := some "tags" } : Orchestrator.OrchConfig).discovery_method =
      some "tags" ∧
    Orchestrator.run envOk { discovery_method := some "tags" } "start" =
      .error Orchestrator.tagDiscoveryArityError :=
  ⟨rfl, run_raises_for_tags_discovery envOk { discovery_method := some "tags" } "start" rfl⟩

/-- C7 counterexample: the priority tag value "-5" is not a valid
non-negative integer, yet `_extract_priority_from_tags` returns -5 — not
the default 50 — because Python's `int()` accepts negative numbers; the
resulting `DiscoveredResource.priority` is negative. -/
theorem extract_priority_negative_cex :
    TagDiscovery.extract_priority_from_tags [("lights-out:priority", "-5")] = -5 ∧
    TagDiscovery.extract_priority_from_tags [("lights-out:priority", "-5")] ≠
      TagDiscovery.DEFAULT_PRIORITY ∧
    TagDiscovery.extract_priority_from_tags [("lights-out:priority", "-5")] < 0 := by
  refine ⟨rfl, by decide, by decide⟩

/-- C7 amended: the priority extraction returns the tag's value as an
integer whenever `int()` accepts it — including negative values — and
returns the default 50 (without raising and without failing the resource)
exactly when the tag is absent or its value is rejected by `int()`; the
extracted priority therefore need not be non-negative. -/
theorem extract_priority_amended (tags : List (String × String)) :
    (lookupTag tags "lights-out:priority" = none →
      TagDiscovery.extract_priority_from_tags tags = TagDiscovery.DEFAULT_PRIORITY) ∧
    (∀ v n, lookupTag tags "lights-out:priority" = some v → pyIntParse v = some n →
      TagDiscovery.extract_priority_from_tags tags = n) ∧
    (∀ v, lookupTag tags "lights-out:priority" = some v → pyIntParse v = none →
      TagDiscovery.extract_priority_from_tags tags = TagDiscovery.DEFAULT_PRIORITY) := by
  unfold TagDiscovery.extract_priority_from_tags
  refine ⟨?_, ?_, ?_⟩
  · intro h
    rw [h]
    rfl
  · intro v n hv hp
    rw [hv]
    simp [Option.getD, hp]
  · intro v hv hp
    rw [hv]
    simp [Option.getD, hp]

/-- Witness for C7 amended: a tag map carrying priority "-7", which
`int()` parses to -7. -/
theorem extract_priority_amended_witness :
    lookupTag [("lights-out:priority", "-7")] "lights-out:priority" = some "-7" ∧
    pyIntParse "-7" = some (-7) ∧
    TagDiscovery.extract_priority_from_tags [("lights-out:priority", "-7")] = -7 :=
  ⟨rfl, by decide,
    (extract_priority_amended [("lights-out:priority", "-7")]).2.1 "-7" (-7) rfl (by decide)⟩

namespace LightsOut

theorem startLe_total (a b : Resource) : startLe a b = true ∨ startLe b a = true := by
  unfold startLe
  rcases le_total a.priority b.priority with h | h
  · left; simpa using h
  · right; simpa using h

theorem startLe_trans (a b c : Resource) (hab : startLe a b = true) (hbc : startLe b c = true) :
    startLe a c = true := by
  unfold startLe at *
  simp only [decide_eq_true_eq] at *
  omega

theorem stopLe_total (a b : Resource) : stopLe a b = true ∨ stopLe b a = true := by
  unfold stopLe
  rcases le_total a.priority b.priority with h | h
  · right; simpa using h
  · left; simpa using h

theorem stopLe_trans (a b c : Resource) (hab : stopLe a b = true) (hbc : stopLe b c = true) :
    stopLe a c = true := by
  unfold stopLe at *
  simp only [decide_eq_true_eq] at *
  omega

theorem startLe_filter_compat (p : Int) (a b : Resource) (hq : (a.priority == p) = true)
    (hle : startLe a b = false) : (b.priority == p) = false := by
  unfold startLe at hle
  have h1 : a.priority = p := by simpa using hq
  have h2 : ¬ (a.priority ≤ b.priority) := by simpa using hle
  rw [beq_eq_false_iff_ne]
  omega

theorem stopLe_filter_compat (p : Int) (a b : Resource) (hq : (a.priority == p) = true)
    (hle : stopLe a b = false) : (b.priority == p) = false := by
  unfold stopLe at hle
  have h1 : a.priority = p := by simpa using hq
  have h2 : ¬ (b.priority ≤ a.priority) := by simpa using hle
  rw [beq_eq_false_iff_ne]
  omega

end LightsOut

/-- C1 amended: `start_resources` processes resources (and returns their
results) in non-decreasing priority order and `stop_resources` in
non-increasing priority order, ties retaining discovery order (for every
priority, the subsequence with that priority equals the input's);
however, `Orchestrator.run` applies no priority ordering at all — for
"start" and "stop" (as for any action) its per-resource loop iterates
the discovered resources in discovery order. -/
theorem priority_ordering_amended :
    (∀ (api : LightsOut.AwsApi) (resources : List LightsOut.Resource) (dry_run : Bool),
      ∃ order : List LightsOut.Resource,
        LightsOut.start_resources api resources dry_run =
          order.map (fun r => LightsOut._start_resource api r dry_run) ∧
        List.Perm order resources ∧
        order.Pairwise (fun a b => a.priority ≤ b.priority) ∧
        (∀ p : Int, (order.filter fun r => r.priority == p) =
          resources.filter fun r => r.priority == p)) ∧
    (∀ (api : LightsOut.AwsApi) (resources : List LightsOut.Resource) (dry_run : Bool),
      ∃ order : List LightsOut.Resource,
        LightsOut.stop_resources api resources dry_run =
          order.map (fun r => LightsOut._stop_resource api r dry_run) ∧
        List.Perm order resources ∧
        order.Pairwise (fun a b => b.priority ≤ a.priority) ∧
        (∀ p : Int, (order.filter fun r => r.priority == p) =
          resources.filter fun r => r.priority == p)) ∧
    (∀ (env : Orchestrator.HandlerEnv) (tag : Option String) (action : String)
        (resources : List DiscoveredResource),
      (Orchestrator.runLoop env tag action resources).processed = resources) := by
  refine ⟨?_, ?_, ?_⟩
  · intro api resources dry_run
    refine ⟨pyStableSort LightsOut.startLe resources, rfl,
      pyStableSort_perm _ _, ?_, ?_⟩
    · exact (pairwise_pyStableSort _ LightsOut.startLe_total LightsOut.startLe_trans
        resources).imp fun h => by simpa [LightsOut.startLe] using h
    · intro p
      exact filter_pyStableSort LightsOut.startLe _
        (fun a b => LightsOut.startLe_filter_compat p a b) resources
  · intro api resources dry_run
    refine ⟨pyStableSort LightsOut.stopLe resources, rfl,
      pyStableSort_perm _ _, ?_, ?_⟩
    · exact (pairwise_pyStableSort _ LightsOut.stopLe_total LightsOut.stopLe_trans
        resources).imp fun h => by simpa [LightsOut.stopLe] using h
    · intro p
      exact filter_pyStableSort LightsOut.stopLe _
        (fun a b => LightsOut.stopLe_filter_compat p a b) resources
  · intro env tag action resources
    rw [Orchestrator.runLoop, Orchestrator.foldl_processed]
    rfl

/-- C1 counterexample: under action "stop" the Orchestrator's per-resource
loop handles the priority-1 service before the priority-2 service (their
discovery order) and appends their results in that order, so the
processing sequence is not in non-increasing priority order as the claim
requires. -/
theorem orchestrator_stop_order_cex :
    (Orchestrator.runLoop envOk (some "lights-out:schedule") "stop"
      [rSvcA, rSvcB]).processed = [rSvcA, rSvcB] ∧
    rSvcA.priority = 1 ∧ rSvcB.priority = 2 ∧
    ¬ List.Chain' (fun a b : DiscoveredResource => b.priority ≤ a.priority)
      (Orchestrator.runLoop envOk (some "lights-out:schedule") "stop"
        [rSvcA, rSvcB]).processed := by
  refine ⟨by rfl, rfl, rfl, ?_⟩
  intro hchain
  rw [show (Orchestrator.runLoop envOk (some "lights-out:schedule") "stop"
      [rSvcA, rSvcB]).processed = [rSvcA, rSvcB] from rfl] at hchain
  rcases hchain with _ | ⟨hle, _⟩
  revert hle
  decide

/-- C2: for every run of the orchestrator loop with action "start", "stop"
or "status", the summary satisfies succeeded + failed + skipped = total,
where skipped counts the discovered resources whose schedule lookup yields
no schedule, total is the number of discovered resources, and each
non-skipped resource increments exactly one of succeeded or failed. -/
theorem run_count_invariant (env : Orchestrator.HandlerEnv) (tag : Option String)
    (action : String) (resources : List DiscoveredResource)
    (h : action = "start" ∨ action = "stop" ∨ action = "status") :
    ((Orchestrator.runSummary env tag action resources).succeeded +
      (Orchestrator.runSummary env tag action resources).failed +
      Orchestrator.skippedCount tag resources =
      (Orchestrator.runSummary env tag action resources).total) ∧
    (∀ (st : Orchestrator.RunState) (r : DiscoveredResource),
      Orchestrator.scheduleFalsy (Orchestrator.get_schedule r tag) = false →
      ((Orchestrator.processResource env tag action st r).succeeded = st.succeeded + 1 ∧
        (Orchestrator.processResource env tag action st r).failed = st.failed) ∨
      ((Orchestrator.processResource env tag action st r).succeeded = st.succeeded ∧
        (Orchestrator.processResource env tag action st r).failed = st.failed + 1)) := by
  refine ⟨?_, fun st r hr => Orchestrator.processResource_exactly_one env tag action st r hr⟩
  have hsum := Orchestrator.foldl_count_sum env tag action resources {}
  have hlen := length_filter_add_length_filter_not
    (fun r => Orchestrator.scheduleFalsy (Orchestrator.get_schedule r tag)) resources
  simp only [Orchestrator.runSummary, Orchestrator.runLoop, Orchestrator.skippedCount]
  simp only [Orchestrator.runLoop] at hsum
  omega

/-- Witness for C2: action "status" on three resources, one with a
registered handler, one without, one without a schedule tag, under the
always-raising handler oracle. -/
theorem run_count_invariant_witness :
    ("status" = "start" ∨ "status" = "stop" ∨ "status" = "status") ∧
    ((Orchestrator.runSummary envRaises (some "lights-out:schedule") "status"
        [rSvcA, rNoHandler, rNoSchedule]).succeeded +
      (Orchestrator.runSummary envRaises (some "lights-out:schedule") "status"
        [rSvcA, rNoHandler, rNoSchedule]).failed +
      Orchestrator.skippedCount (some "lights-out:schedule") [rSvcA, rNoHandler, rNoSchedule] =
      (Orchestrator.runSummary envRaises (some "lights-out:schedule") "status"
        [rSvcA, rNoHandler, rNoSchedule]).total) :=
  ⟨Or.inr (Or.inr rfl),
    (run_count_invariant envRaises (some "lights-out:schedule") "status"
      [rSvcA, rNoHandler, rNoSchedule] (Or.inr (Or.inr rfl))).1⟩

/-- C3 counterexample: with one resource dispatched to a raising handler
and one resource with no registered handler, the run does report total=2,
succeeded=0, failed=2 — but only the raising handler's failure appears in
the results sequence; the no-handler failure merely increments the
counter, so results does not contain two failed outcomes. -/
theorem failure_results_cex :
    (Orchestrator.runSummary envRaises (some "lights-out:schedule") "stop"
      [rSvcA, rNoHandler]).total = 2 ∧
    (Orchestrator.runSummary envRaises (some "lights-out:schedule") "stop"
      [rSvcA, rNoHandler]).failed = 2 ∧
    (Orchestrator.runSummary envRaises (some "lights-out:schedule") "stop"
      [rSvcA, rNoHandler]).results.length ≠ 2 := by
  refine ⟨rfl, rfl, ?_⟩
  decide

/-- C3 amended: for the two-resource run where one resource dispatches to
a handler whose operation raises and the other has no registered handler,
the loop completes and returns total=2, succeeded=0, failed=2; the raised
exception is recorded as a failed outcome in results, while the
no-handler resource is counted in failed without a results entry, so the
results sequence has exactly one element. -/
theorem failure_isolation_amended :
    Orchestrator.runSummary envRaises (some "lights-out:schedule") "stop"
      [rSvcA, rNoHandler] =
    { total := 2, succeeded := 0, failed := 2,
      results := [.errorDict "prod/svc-a" "ecs-service" "boom"] } := by
  rfl

/-- C4: whenever `get_status` reports the service already stopped, `stop`
returns success with the "already stopped" message and the pre-call status
(whose `is_stopped` is true) as `previous_state`, issues no mutating
update call and leaves the control plane unchanged — so a second `stop`
on the same stopped resource returns the very same successful result. -/
theorem ecs_stop_idempotent (h : ECSServiceHandler) (env : ECSEnv) (s : ECSStatus)
    (hs : h.get_status env = .ok s) (hstop : s.is_stopped = true) :
    (h.stop env).result.success = true ∧
    (h.stop env).result.message = "Service already stopped" ∧
    (∃ ps, (h.stop env).result.previous_state = some ps ∧ ps.is_stopped = true) ∧
    (h.stop env).updateCalled = false ∧
    (h.stop env).env = env ∧
    h.stop (h.stop env).env = h.stop env := by
  have hv : h.stop env =
      { result := { success := true, action := "stop",
                    resource_type := h.resource.resource_type,
                    resource_id := h.resource.resource_id,
                    message := "Service already stopped",
                    previous_state := some s }
        env := env, updateCalled := false } := by
    unfold ECSServiceHandler.stop
    rw [hs]
    simp [hstop]
  refine ⟨by rw [hv], by rw [hv], ⟨s, by rw [hv], hstop⟩, by rw [hv], by rw [hv], ?_⟩
  rw [show (h.stop env).env = env from by rw [hv]]

/-- Witness for C4: the handler for `rSvcA` against a control plane whose
service has desired count 0. -/
theorem ecs_stop_idempotent_witness :
    hSvcA.get_status ecsEnvStopped =
      .ok { desired_count := 0, running_count := 0, status := "ACTIVE", is_stopped := true } ∧
    ({ desired_count := 0, running_count := 0, status := "ACTIVE",
       is_stopped := true } : ECSStatus).is_stopped = true ∧
    ((hSvcA.stop ecsEnvStopped).result.success = true ∧
     (hSvcA.stop ecsEnvStopped).result.message = "Service already stopped" ∧
     (∃ ps, (hSvcA.stop ecsEnvStopped).result.previous_state = some ps ∧
       ps.is_stopped = true) ∧
     (hSvcA.stop ecsEnvStopped).updateCalled = false ∧
     (hSvcA.stop ecsEnvStopped).env = ecsEnvStopped ∧
     hSvcA.stop (hSvcA.stop ecsEnvStopped).env = hSvcA.stop ecsEnvStopped) :=
  ⟨rfl, rfl, ecs_stop_idempotent hSvcA ecsEnvStopped
    { desired_count := 0, running_count := 0, status := "ACTIVE", is_stopped := true }
    rfl rfl⟩

theorem service_not_found_ne_empty (a b : String) :
    ("Service " ++ a ++ " not found in cluster " ++ b) ≠ "" := by
  intro hcontra
  have hlen := congrArg String.length hcontra
  simp only [String.length_append] at hlen
  have h8 : ("Service " : String).length = 8 := rfl
  have h0 : ("" : String).length = 0 := rfl
  omega

theorem get_status_error_nonempty (h : ECSServiceHandler) (env : ECSEnv) (e : String)
    (he : h.get_status env = .error e) (hwf : env.errorsNonempty) : e ≠ "" := by
  unfold ECSServiceHandler.get_status at he
  cases hd : env.describeErr with
  | some d =>
    rw [hd] at he
    cases he
    exact hwf.1 _ hd
  | none =>
    rw [hd] at he
    cases hsvc : env.svc with
    | none =>
      rw [hsvc] at he
      cases he
      exact service_not_found_ne_empty _ _
    | some service =>
      rw [hsvc] at he
      cases he

theorem stop_error_dichotomy (h : ECSServiceHandler) (env : ECSEnv) :
    ((h.stop env).result.success = true → (h.stop env).result.error = none) ∧
    ((h.stop env).result.success = false →
      ∃ e, (h.stop env).result.error = some e ∧ (env.errorsNonempty → e ≠ "")) := by
  unfold ECSServiceHandler.stop
  cases hg : h.get_status env with
  | error e =>
    refine ⟨fun hsucc => by simp at hsucc, fun _ => ⟨e, rfl, fun hwf => ?_⟩⟩
    exact get_status_error_nonempty h env e hg hwf
  | ok s =>
    by_cases hstop : s.is_stopped = true
    · simp [hstop]
    · have hstop' : s.is_stopped = false := by simpa using hstop
      simp only [hstop', Bool.false_eq_true, if_false]
      cases hu : env.updateErr with
      | some e =>
        refine ⟨fun hsucc => by simp at hsucc, fun _ => ⟨e, rfl, fun hwf => hwf.2.1 e hu⟩⟩
      | none =>
        by_cases hw : (h._get_resource_defaults).wait_for_stable.getD false = true
        · simp only [hw, if_true]
          cases hwait : env.waitErr with
          | some e =>
            refine ⟨fun hsucc => by simp at hsucc,
              fun _ => ⟨e, rfl, fun hwf => hwf.2.2 e hwait⟩⟩
          | none =>
            exact ⟨fun _ => rfl, fun hfail => by simp at hfail⟩
        · have hw' : (h._get_resource_defaults).wait_for_stable.getD false = false := by
            simpa using hw
          simp only [hw', Bool.false_eq_true, if_false]
          exact ⟨fun _ => trivial, fun hfail => by simp at hfail⟩

theorem start_error_dichotomy (h : ECSServiceHandler) (env : ECSEnv) :
    ((h.start env).result.success = true → (h.start env).result.error = none) ∧
    ((h.start env).result.success = false →
      ∃ e, (h.start env).result.error = some e ∧ (env.errorsNonempty → e ≠ "")) := by
  unfold ECSServiceHandler.start
  cases hg : h.get_status env with
  | error e =>
    refine ⟨fun hsucc => by simp at hsucc, fun _ => ⟨e, rfl, fun hwf => ?_⟩⟩
    exact get_status_error_nonempty h env e hg hwf
  | ok s =>
    by_cases htgt : (s.desired_count ==
        (h._get_resource_defaults).default_desired_count.getD 1) = true
    · simp [htgt]
    · have htgt' : (s.desired_count ==
          (h._get_resource_defaults).default_desired_count.getD 1) = false := by
        simpa using htgt
      simp only [htgt', Bool.false_eq_true, if_false]
      cases hu : env.updateErr with
      | some e =>
        refine ⟨fun hsucc => by simp at hsucc, fun _ => ⟨e, rfl, fun hwf => hwf.2.1 e hu⟩⟩
      | none =>
        by_cases hw : (h._get_resource_defaults).wait_for_stable.getD false = true
        · simp only [hw, if_true]
          cases hwait : env.waitErr with
          | some e =>
            refine ⟨fun hsucc => by simp at hsucc,
              fun _ => ⟨e, rfl, fun hwf => hwf.2.2 e hwait⟩⟩
          | none =>
            exact ⟨fun _ => rfl, fun hfail => by simp at hfail⟩
        · have hw' : (h._get_resource_defaults).wait_for_stable.getD false = false := by
            simpa using hw
          simp only [hw', Bool.false_eq_true, if_false]
          exact ⟨fun _ => trivial, fun hfail => by simp at hfail⟩

/-- C6 counterexample: if the describe call raises an exception whose text
is empty, `stop` returns a failed result whose error is the empty string,
violating the claimed non-emptiness. -/
theorem ecs_error_empty_cex :
    (hSvcA.stop ecsEnvEmptyErr).result.success = false ∧
    (hSvcA.stop ecsEnvEmptyErr).result.error = some "" :=
  ⟨rfl, rfl⟩

/-- C6 amended: every result of `start` or `stop` has `error = none` when
successful, and when failed carries `error = some e` with `e` the caught
exception's text — which is non-empty whenever every control-plane
exception text is non-empty (the handler's own "not found" exception text
always is). -/
theorem ecs_result_error_dichotomy_amended (h : ECSServiceHandler) (env : ECSEnv) :
    (((h.stop env).result.success = true → (h.stop env).result.error = none) ∧
     ((h.stop env).result.success = false →
       ∃ e, (h.stop env).result.error = some e ∧ (env.errorsNonempty → e ≠ ""))) ∧
    (((h.start env).result.success = true → (h.start env).result.error = none) ∧
     ((h.start env).result.success = false →
       ∃ e, (h.start env).result.error = some e ∧ (env.errorsNonempty → e ≠ ""))) :=
  ⟨stop_error_dichotomy h env, start_error_dichotomy h env⟩

/-- Witness for C6 amended: the failed stop against the empty-text
describe failure yields a present (though empty) error. -/
theorem ecs_result_error_dichotomy_amended_witness :
    (hSvcA.stop ecsEnvEmptyErr).result.success = false ∧
    ∃ e, (hSvcA.stop ecsEnvEmptyErr).result.error = some e ∧
      (ecsEnvEmptyErr.errorsNonempty → e ≠ "") :=
  ⟨rfl, (ecs_result_error_dichotomy_amended hSvcA ecsEnvEmptyErr).1.2 rfl⟩
